import Mathlib

/-
Verification of the contacts CRUD application.

The data model and operations below are shallow embeddings of the Rust
source: src/model.rs (Contact, PendingContact, validation), src/html_views.rs
(list/search/paginate, edit, delete, email probe handlers) and the parallel
handlers in src/main.rs.  Database queries against the contacts table are
modelled as pure functions over a List of rows; SQL LIKE and ILIKE pattern
matching is modelled explicitly.
-/

namespace ContactsApp

/-- Embeds ContactAttributes from src/model.rs: the four text columns of the
contacts table. -/
structure ContactAttributes where
  first_name : String
  last_name : String
  phone : String
  email_address : String
deriving DecidableEq, Repr

/-- Embeds Contact from src/model.rs: a row of the contacts table, an integer
identifier (ContactId wraps i32) plus the four attributes. -/
structure Contact where
  id : Int
  attributes : ContactAttributes
deriving DecidableEq, Repr

namespace PendingContact

/-- Embeds the macro-generated PendingContact::Form struct from src/model.rs
(via the form_struct macro in src/form_struct.rs): all four fields optional,
raw user input before validation. -/
structure Form where
  first_name : Option String
  last_name : Option String
  phone : Option String
  email_address : Option String
deriving DecidableEq, Repr

/-- Embeds the macro-generated PendingContact::Errors struct: at most one
static message per field. -/
structure Errors where
  first_name : Option String
  last_name : Option String
  phone : Option String
  email_address : Option String
deriving DecidableEq, Repr

/-- Embeds Errors::default(): every field starts with no error message. -/
def Errors.default : Errors := Errors.mk none none none none

/-- Embeds the error-construction branch of PendingContact::Form::to_valid
(src/model.rs lines 107-126): starting from Errors::default, each field gets
its message exactly under the condition tested in the source (absence, and
for the email also presence with the empty string). -/
def Form.validationErrors (self : Form) : Errors :=
  Errors.mk
    (if self.first_name = none then some "Missing first name" else none)
    (if self.last_name = none then some "Missing last name" else none)
    (if self.phone = none then some "Missing phone" else none)
    (if self.email_address = none ∨ self.email_address = some "" then
      some "Missing email address"
    else none)

/-- Embeds PendingContact::Form::to_valid (src/model.rs lines 91-129): the
match succeeds when all four fields are present and the guard on the email
not being empty holds; every other case falls through to the error branch. -/
def Form.to_valid (self : Form) : Except Errors ContactAttributes :=
  match self.first_name, self.last_name, self.phone, self.email_address with
  | some first_name, some last_name, some phone, some email =>
    if email = "" then
      Except.error self.validationErrors
    else
      Except.ok (ContactAttributes.mk first_name last_name phone email)
  | _, _, _, _ => Except.error self.validationErrors

/-- Embeds the From Contact for PendingContact::Form impl
(src/model.rs lines 74-89): wrap every stored attribute in Some. -/
def Form.fromContact (value : Contact) : Form :=
  Form.mk
    (some value.attributes.first_name)
    (some value.attributes.last_name)
    (some value.attributes.phone)
    (some value.attributes.email_address)

end PendingContact

/-- Decidable equality on the validation result type, so that concrete
validation runs can be checked by evaluation. -/
instance {ε α : Type} [DecidableEq ε] [DecidableEq α] :
    DecidableEq (Except ε α) := fun a b =>
  match a, b with
  | Except.error x, Except.error y => decidable_of_iff (x = y) (by simp)
  | Except.error _, Except.ok _ => Decidable.isFalse (by simp)
  | Except.ok _, Except.error _ => Decidable.isFalse (by simp)
  | Except.ok x, Except.ok y => decidable_of_iff (x = y) (by simp)

/-- Model of SQL LIKE pattern matching over character lists, as executed by
PostgreSQL for the diesel like and ilike calls in src/html_views.rs and
src/main.rs: a percent sign matches any sequence of characters, an underscore
matches exactly one character, any other pattern character matches itself. -/
def likeMatch : List Char → List Char → Bool
  | [], s => s.isEmpty
  | p :: ps, s =>
    if p = '%' then
      s.tails.any (fun t => likeMatch ps t)
    else
      match s with
      | [] => false
      | c :: cs => (if p = '_' then true else p == c) && likeMatch ps cs

/-- Lower-casing of a character list, modelling the case folding PostgreSQL
applies for ILIKE. -/
def lowerChars (l : List Char) : List Char := l.map Char.toLower

/-- Model of the SQL LIKE operator on strings (case-sensitive), used by the
email probe in src/html_views.rs line 657 and src/main.rs line 819. -/
def sqlLike (pattern s : String) : Bool :=
  likeMatch pattern.toList s.toList

/-- Model of the SQL ILIKE operator on strings (case-insensitive LIKE), used
by the search branch of the contacts handler. -/
def sqlIlike (pattern s : String) : Bool :=
  likeMatch (lowerChars pattern.toList) (lowerChars s.toList)

/-- Insertion of a contact into a list sorted by ascending identifier. -/
def insertById (c : Contact) : List Contact → List Contact
  | [] => [c]
  | d :: ds => if c.id ≤ d.id then c :: d :: ds else d :: insertById c ds

/-- Sorting a list of rows by ascending identifier, modelling the order(id)
clause of the no-query branch of the contacts handler. -/
def sortById : List Contact → List Contact
  | [] => []
  | c :: cs => insertById c (sortById cs)

/-- Embeds the search branch of the contacts handler (src/html_views.rs lines
94-102, src/main.rs lines 338-347): filter the table by first or last name
matching the query followed by a percent sign, under ILIKE; no order, limit
or offset clause is applied. -/
def contactsSearch (q : String) (table : List Contact) : List Contact :=
  table.filter (fun c =>
    sqlIlike (q ++ "%") c.attributes.first_name ||
      sqlIlike (q ++ "%") c.attributes.last_name)

/-- Embeds the no-query branch of the contacts handler (src/html_views.rs
lines 103-110, src/main.rs lines 348-356): order by id, offset by the raw
page number (the source passes page_number itself to offset, not
page_number * 10), then limit 10. -/
def contactsPage (page_number : Nat) (table : List Contact) : List Contact :=
  (((sortById table).drop page_number).take 10)

/-- Embeds the query-dispatch part of the contacts handler (src/html_views.rs
lines 73-113): the page parameter defaults to 0, a present query selects the
search branch, otherwise the paginated branch runs. -/
def contactsQuery (query : Option String) (page : Option Nat)
    (table : List Contact) : List Contact :=
  let page_number := page.getD 0
  match query with
  | some q => contactsSearch q table
  | none => contactsPage page_number table

/-- Embeds contacts_email_get (src/html_views.rs lines 640-667, src/main.rs
lines 803-830): a missing parameter defaults to the empty string; empty input
short-circuits; otherwise the table is filtered with the raw input as a LIKE
pattern and the body depends on whether the count is zero. -/
def contacts_email_get (email_address : Option String)
    (table : List Contact) : String :=
  let email := email_address.getD ""
  if email = "" then
    "Email cannot be empty"
  else
    let contact_count :=
      (table.filter (fun c => sqlLike email c.attributes.email_address)).length
    if contact_count = 0 then "" else "Email must be unique"

/-- Embeds the database action of contacts_delete (src/html_views.rs lines
564-589): delete the rows found by the identifier; zero matched rows is not
an error, the statement simply removes nothing. -/
def contacts_delete (contact_id : Int) (table : List Contact) : List Contact :=
  table.filter (fun c => !(c.id == contact_id))

/-- Embeds the database action of contacts_delete_all (src/html_views.rs
lines 604-627): delete every row whose identifier is in the submitted set. -/
def contacts_delete_all (selected_contact_ids : List Int)
    (table : List Contact) : List Contact :=
  table.filter (fun c => !(selected_contact_ids.contains c.id))

/-- Embeds the diesel update statement of contacts_edit_post: set the four
attribute columns on the rows found by the identifier. -/
def updateContactTable (table : List Contact) (contact_id : Int)
    (contact : ContactAttributes) : List Contact :=
  table.map (fun c => if c.id = contact_id then Contact.mk c.id contact else c)

/-- Response alternatives of the edit POST handler: re-render the edit form
with the submitted values and the per-field errors, or redirect with a flash
message. -/
inductive EditPostResponse where
  | editForm (id : Int) (contact : PendingContact.Form)
      (errors : PendingContact.Errors)
  | redirect (path : String) (flashSuccess : String)
deriving DecidableEq, Repr

/-- Path of the view page for one contact, as produced by the ViewContact
typed path. -/
def viewContactPath (id : Int) : String := "/contacts/" ++ toString id

/-- Embeds contacts_edit_post (src/html_views.rs lines 440-470, src/main.rs
lines 640-669): validate first; on failure return the edit form rendered from
the submitted pending values and the errors, touching no table row; on
success run the update statement and redirect to the view page with a success
flash. -/
def contacts_edit_post (id : Int) (pending_contact : PendingContact.Form)
    (table : List Contact) : List Contact × EditPostResponse :=
  match pending_contact.to_valid with
  | Except.error errors =>
    (table, EditPostResponse.editForm id pending_contact errors)
  | Except.ok contact =>
    (updateContactTable table id contact,
      EditPostResponse.redirect (viewContactPath id) "Updated contact!")

/-- Lookup of a submitted form value by key, modelling serde form
deserialization of one field from urlencoded key-value pairs. -/
def lookupFormValue (key : String) (pairs : List (String × String)) :
    Option String :=
  match pairs.find? (fun kv => kv.fst == key) with
  | some kv => some kv.snd
  | none => none

/-- Embeds deserialization of PendingContact::Form (src/model.rs lines 57-64
through the form_struct macro in src/form_struct.rs): each field reads the
key given by its serde rename attribute; the phone field reads the key
phonee. -/
def parsePendingContactForm (pairs : List (String × String)) :
    PendingContact.Form :=
  PendingContact.Form.mk
    (lookupFormValue "first_name" pairs)
    (lookupFormValue "last_name" pairs)
    (lookupFormValue "phonee" pairs)
    (lookupFormValue "email_address" pairs)

/-- The input field names submitted by the rendered create and edit forms
(the name attributes in new_contact_form, src/html_views.rs lines 325-340,
and edit_contact_form, src/html_views.rs lines 485-504). -/
def renderedContactFormFields : List String :=
  ["email_address", "first_name", "last_name", "phone"]

/-- Case-insensitive starts-with test on character lists, the plain-language
reading of the search behaviour once wildcards are ruled out. -/
def startsWithChars : List Char → List Char → Bool
  | [], _ => true
  | _ :: _, [] => false
  | p :: ps, c :: cs => p == c && startsWithChars ps cs

/-- Case-insensitive check that the second string starts with the first. -/
def ciStartsWith (q s : String) : Bool :=
  startsWithChars (lowerChars q.toList) (lowerChars s.toList)

theorem likeMatch_nil (s : List Char) : likeMatch [] s = s.isEmpty := rfl

theorem likeMatch_percent_any (s : List Char) : likeMatch ['%'] s = true := by
  have h : ([] : List Char) ∈ s.tails :=
    (List.mem_tails [] s).mpr List.nil_suffix
  simp only [likeMatch, if_true, List.any_eq_true]
  exact ⟨[], h, rfl⟩

theorem likeMatch_append_percent (p : List Char)
    (hp : ∀ c ∈ p, c ≠ '%' ∧ c ≠ '_') (s : List Char) :
    likeMatch (p ++ ['%']) s = startsWithChars p s := by
  induction p generalizing s with
  | nil => simpa [startsWithChars] using likeMatch_percent_any s
  | cons a as ih =>
    have ha := hp a (by simp)
    cases s with
    | nil => simp [likeMatch, startsWithChars, ha.1]
    | cons c cs =>
      simp only [List.cons_append, likeMatch, if_neg ha.1, if_neg ha.2,
        startsWithChars, List.append_eq]
      rw [ih (fun x hx => hp x (by simp [hx]))]

theorem toList_append (a b : String) :
    (a ++ b).toList = a.toList ++ b.toList := by
  simp [String.toList, String.data_append]

theorem lowerChars_append (a b : List Char) :
    lowerChars (a ++ b) = lowerChars a ++ lowerChars b := by
  simp [lowerChars]

theorem sqlIlike_append_percent (q s : String)
    (hq : ∀ c ∈ q.toList, Char.toLower c ≠ '%' ∧ Char.toLower c ≠ '_') :
    sqlIlike (q ++ "%") s = ciStartsWith q s := by
  have hperc : ("%" : String).toList = ['%'] := rfl
  have hlow : lowerChars ['%'] = ['%'] := by simp [lowerChars]
  rw [sqlIlike, toList_append, hperc, lowerChars_append, hlow,
    likeMatch_append_percent]
  · rfl
  · intro c hc
    simp only [lowerChars, List.mem_map] at hc
    obtain ⟨d, hd, rfl⟩ := hc
    exact hq d hd

theorem to_valid_of_phone_none (f : PendingContact.Form)
    (h : f.phone = none) :
    f.to_valid = Except.error f.validationErrors := by
  obtain ⟨a, b, ph, d⟩ := f
  simp only at h
  subst h
  cases a <;> cases b <;> cases d <;> rfl

theorem to_valid_error_eq (f : PendingContact.Form)
    (e : PendingContact.Errors) (h : f.to_valid = Except.error e) :
    e = f.validationErrors := by
  unfold PendingContact.Form.to_valid at h
  split at h
  · split at h <;> simp_all
  · simp_all

/-- A stored contact used as concrete input in several witnesses. -/
def adaContact : Contact :=
  Contact.mk 1 (ContactAttributes.mk "Ada" "Lovelace" "555-0100"
    "ada@example.com")

/-- A form whose first name is present but empty while every other field is
present and non-empty. -/
def emptyFirstNameForm : PendingContact.Form :=
  PendingContact.Form.mk (some "") (some "Lovelace") (some "555-0100")
    (some "ada@example.com")

/-- Claim C1 counterexample: a form whose first name is present but equal to
the empty string is accepted by to_valid, not rejected, because the source
only guards the email field against emptiness. -/
theorem empty_first_name_accepted_counterexample :
    emptyFirstNameForm.first_name = some "" ∧
    emptyFirstNameForm.to_valid =
      Except.ok (ContactAttributes.mk "" "Lovelace" "555-0100"
        "ada@example.com") := by
  exact ⟨rfl, by decide⟩

/-- Claim C1 (amended): validation succeeds, returning a complete record, if
and only if all four fields are present and the email address is non-empty;
a present-but-empty first name, last name or phone is accepted. -/
theorem to_valid_ok_characterization (f : PendingContact.Form) :
    (∃ a, f.to_valid = Except.ok a) ↔
      (f.first_name ≠ none ∧ f.last_name ≠ none ∧ f.phone ≠ none ∧
        f.email_address ≠ none ∧ f.email_address ≠ some "") := by
  obtain ⟨a, b, c, d⟩ := f
  cases a <;> cases b <;> cases c <;> cases d <;>
    simp [PendingContact.Form.to_valid]
  case some.some.some.some z =>
    by_cases hz : z = "" <;> simp [hz]

/-- Claim C1 witness: the amended characterization applied to a concrete
fully-present form with non-empty email. -/
theorem to_valid_ok_characterization_witness :
    ∃ a, (PendingContact.Form.fromContact adaContact).to_valid =
      Except.ok a :=
  (to_valid_ok_characterization (PendingContact.Form.fromContact adaContact)).mpr
    (by decide)

/-- Claim C4: for every input that fails validation, the error record has an
entry for first name, last name and phone exactly when the field is absent,
and an entry for the email exactly when it is absent or present but empty,
with the same missing-email message in both cases; each field carries at most
one message by construction. -/
theorem validation_error_entries (f : PendingContact.Form)
    (e : PendingContact.Errors) (h : f.to_valid = Except.error e) :
    e.first_name =
      (if f.first_name = none then some "Missing first name" else none) ∧
    e.last_name =
      (if f.last_name = none then some "Missing last name" else none) ∧
    e.phone = (if f.phone = none then some "Missing phone" else none) ∧
    e.email_address =
      (if f.email_address = none ∨ f.email_address = some "" then
        some "Missing email address" else none) := by
  have he := to_valid_error_eq f e h
  subst he
  exact ⟨rfl, rfl, rfl, rfl⟩

/-- A form submission that is missing only the phone field. -/
def missingPhoneForm : PendingContact.Form :=
  PendingContact.Form.mk (some "Ada") (some "Lovelace") none
    (some "ada@example.com")

/-- The error record produced for missingPhoneForm. -/
def missingPhoneErrors : PendingContact.Errors :=
  PendingContact.Errors.mk none none (some "Missing phone") none

/-- Claim C4 witness: the error characterization applied to a concrete form
missing only the phone. -/
theorem validation_error_entries_witness :
    missingPhoneErrors.first_name =
      (if missingPhoneForm.first_name = none then some "Missing first name"
        else none) ∧
    missingPhoneErrors.last_name =
      (if missingPhoneForm.last_name = none then some "Missing last name"
        else none) ∧
    missingPhoneErrors.phone =
      (if missingPhoneForm.phone = none then some "Missing phone" else none) ∧
    missingPhoneErrors.email_address =
      (if missingPhoneForm.email_address = none ∨
          missingPhoneForm.email_address = some "" then
        some "Missing email address" else none) :=
  validation_error_entries missingPhoneForm missingPhoneErrors (by decide)

/-- Claim C10: converting a stored contact to a pending form and validating
is the identity on the attributes whenever the stored email is non-empty. -/
theorem contact_roundtrip_identity (c : Contact)
    (h : c.attributes.email_address ≠ "") :
    (PendingContact.Form.fromContact c).to_valid = Except.ok c.attributes := by
  obtain ⟨i, fn, ln, ph, em⟩ := c
  simp only at h
  simp [PendingContact.Form.fromContact, PendingContact.Form.to_valid, h]

/-- Claim C10 witness: the round trip applied to a concrete stored contact. -/
theorem contact_roundtrip_identity_witness :
    (PendingContact.Form.fromContact adaContact).to_valid =
      Except.ok adaContact.attributes :=
  contact_roundtrip_identity adaContact (by decide)

/-- Claim C8: any submission whose keys are the field names of the rendered
create and edit forms parses with phone equal to none, because the form
struct reads the phone from the key phonee; validation of such a submission
therefore always fails and reports the missing-phone error. -/
theorem rendered_form_phone_mismatch (pairs : List (String × String))
    (h : ∀ kv ∈ pairs, kv.fst ∈ renderedContactFormFields) :
    (parsePendingContactForm pairs).phone = none ∧
    ∃ e, (parsePendingContactForm pairs).to_valid = Except.error e ∧
      e.phone = some "Missing phone" := by
  have hfind : pairs.find? (fun kv => kv.fst == "phonee") = none := by
    rw [List.find?_eq_none]
    intro kv hkv
    have hmem := h kv hkv
    simp only [renderedContactFormFields, List.mem_cons,
      List.not_mem_nil, or_false] at hmem
    rcases hmem with h1 | h1 | h1 | h1 <;> simp [h1]
  have hp : (parsePendingContactForm pairs).phone = none := by
    show lookupFormValue "phonee" pairs = none
    unfold lookupFormValue
    rw [hfind]
  refine ⟨hp, (parsePendingContactForm pairs).validationErrors,
    to_valid_of_phone_none _ hp, ?_⟩
  simp [PendingContact.Form.validationErrors, hp]

/-- The key-value pairs submitted by the rendered forms for a fully filled-in
contact: note the key phone, as rendered, not phonee. -/
def renderedSubmission : List (String × String) :=
  [("email_address", "ada@example.com"), ("first_name", "Ada"),
    ("last_name", "Lovelace"), ("phone", "555-0100")]

/-- Claim C8 witness: a concrete rendered-form submission with all four
fields filled in still fails validation with the missing-phone error. -/
theorem rendered_form_phone_mismatch_witness :
    (parsePendingContactForm renderedSubmission).phone = none ∧
    ∃ e, (parsePendingContactForm renderedSubmission).to_valid =
      Except.error e ∧ e.phone = some "Missing phone" :=
  rendered_form_phone_mismatch renderedSubmission (by decide)

/-- A table of eleven contacts with identifiers 1 through 11, listed in
ascending identifier order. -/
def elevenContacts : List Contact :=
  (List.range 11).map (fun i =>
    Contact.mk (Int.ofNat (i + 1))
      (ContactAttributes.mk "First" "Last" "555-0100" "c@example.com"))

/-- Claim C2 (code bug, evaluated at the failing input): the no-query branch
offsets by the raw page number, not page times 10, so over eleven contacts
page 0 returns identifiers 1 through 10 while page 1 returns identifiers 2
through 11: consecutive pages share nine identifiers instead of skipping ten
records and being disjoint. -/
theorem pagination_offset_code_bug :
    (contactsQuery none (some 0) elevenContacts).map Contact.id =
      [1, 2, 3, 4, 5, 6, 7, 8, 9, 10] ∧
    (contactsQuery none (some 1) elevenContacts).map Contact.id =
      [2, 3, 4, 5, 6, 7, 8, 9, 10, 11] := by
  decide

/-- A contact whose first name contains Ada as a proper substring but not as
a prefix. -/
def xAdaContact : Contact :=
  Contact.mk 1 (ContactAttributes.mk "xAda" "Smith" "555-0101"
    "x@example.com")

/-- Claim C3 counterexample: the query Ada occurs as a case-insensitive
substring of the stored first name xAda, yet the search returns nothing: the
source matches with ILIKE against the query followed by a percent sign, a
prefix match, not a substring match. -/
theorem search_substring_counterexample :
    (∃ pre post,
      pre ++ lowerChars "Ada".toList ++ post = lowerChars "xAda".toList) ∧
    contactsQuery (some "Ada") none [xAdaContact] = [] := by
  exact ⟨⟨['x'], [], by decide⟩, by decide⟩

/-- Claim C3 (amended): for every query free of LIKE wildcards, the search
result contains exactly the contacts whose first or last name has the query
as a case-insensitive prefix, and no pagination limit or offset applies: the
result is the same for every page parameter. -/
theorem search_ci_prefix_characterization (q : String) (page : Option Nat)
    (table : List Contact)
    (hq : ∀ c ∈ q.toList, Char.toLower c ≠ '%' ∧ Char.toLower c ≠ '_') :
    contactsQuery (some q) page table =
      table.filter (fun c =>
        ciStartsWith q c.attributes.first_name ||
          ciStartsWith q c.attributes.last_name) := by
  show contactsSearch q table = _
  unfold contactsSearch
  congr 1
  funext c
  rw [sqlIlike_append_percent q _ hq, sqlIlike_append_percent q _ hq]

/-- Claim C3 witness: the amended search characterization applied to a
concrete query and table. -/
theorem search_ci_prefix_characterization_witness :
    contactsQuery (some "ada") (some 3) [adaContact, xAdaContact] =
      List.filter (fun c =>
        ciStartsWith "ada" c.attributes.first_name ||
          ciStartsWith "ada" c.attributes.last_name)
        [adaContact, xAdaContact] :=
  search_ci_prefix_characterization "ada" (some 3) [adaContact, xAdaContact]
    (by decide)

/-- Claim C5: the edit POST validates first; on failure no table row changes
and the response is the edit form rendered from the submitted values plus
the field errors; on success the rows with the edited identifier get the
submitted attributes and the response redirects to the view page with the
success flash. -/
theorem edit_post_contract (id : Int) (pending : PendingContact.Form)
    (table : List Contact) :
    (∀ e, pending.to_valid = Except.error e →
      contacts_edit_post id pending table =
        (table, EditPostResponse.editForm id pending e)) ∧
    (∀ a, pending.to_valid = Except.ok a →
      contacts_edit_post id pending table =
        (table.map (fun c => if c.id = id then Contact.mk c.id a else c),
          EditPostResponse.redirect (viewContactPath id)
            "Updated contact!")) := by
  constructor
  · intro e he
    simp [contacts_edit_post, he]
  · intro a ha
    simp [contacts_edit_post, updateContactTable, ha]

/-- Claim C5 witness: a submission missing the phone leaves a concrete table
untouched and re-renders the edit form with the submitted values and the
missing-phone error. -/
theorem edit_post_contract_witness :
    contacts_edit_post 1 missingPhoneForm [adaContact] =
      ([adaContact],
        EditPostResponse.editForm 1 missingPhoneForm missingPhoneErrors) :=
  (edit_post_contract 1 missingPhoneForm [adaContact]).1 missingPhoneErrors
    (by decide)

/-- Claim C7: deleting by an identifier matching no row returns the table
unchanged (zero matched rows is not an error), and bulk delete removes
exactly the rows whose identifiers are in the submitted set, whether or not
every submitted identifier is present. -/
theorem delete_missing_and_bulk_exact (contact_id : Int) (ids : List Int)
    (table : List Contact) :
    ((∀ c ∈ table, c.id ≠ contact_id) →
      contacts_delete contact_id table = table) ∧
    (∀ c, c ∈ contacts_delete_all ids table ↔ c ∈ table ∧ c.id ∉ ids) := by
  constructor
  · intro h
    apply List.filter_eq_self.mpr
    intro c hc
    simp [contacts_delete, h c hc]
  · intro c
    simp [contacts_delete_all, List.mem_filter]

/-- Claim C7 witness: deleting the absent identifier 99 from a concrete
one-row table returns the table unchanged. -/
theorem delete_missing_and_bulk_exact_witness :
    contacts_delete 99 [adaContact] = [adaContact] :=
  (delete_missing_and_bulk_exact 99 [] [adaContact]).1 (by decide)

/-- A list filtered by a predicate has length zero exactly when the
predicate is false on every element. -/
theorem filter_length_zero_iff (p : Contact → Bool) (l : List Contact) :
    (l.filter p).length = 0 ↔ ∀ c ∈ l, p c = false := by
  rw [List.length_eq_zero, List.filter_eq_nil_iff]
  simp

/-- Claim C9: the probe passes the raw input to LIKE, so the one-character
input percent is treated as a wildcard: whenever the table has at least one
row, the probe answers Email must be unique, although percent is no stored
contact's literal email address. -/
theorem email_probe_percent_wildcard (table : List Contact)
    (hne : table ≠ [])
    (_hlit : ∀ c ∈ table, c.attributes.email_address ≠ "%") :
    contacts_email_get (some "%") table = "Email must be unique" := by
  have hfilter :
      table.filter (fun c => sqlLike "%" c.attributes.email_address) =
        table := by
    apply List.filter_eq_self.mpr
    intro c _
    exact likeMatch_percent_any _
  simp [contacts_email_get, hfilter, hne]

/-- Claim C9 witness: the wildcard probe applied to a concrete one-row
table. -/
theorem email_probe_percent_wildcard_witness :
    contacts_email_get (some "%") [adaContact] = "Email must be unique" :=
  email_probe_percent_wildcard [adaContact] (by decide) (by decide)

/-- Claim C6 counterexample: with one stored contact whose email address is
ada@example.com, the non-empty probe input percent matches no stored address
literally, yet the body is Email must be unique instead of being empty. -/
theorem email_probe_equality_counterexample :
    ("%" : String) ≠ "" ∧
    (∀ c ∈ [adaContact], c.attributes.email_address ≠ "%") ∧
    contacts_email_get (some "%") [adaContact] = "Email must be unique" := by
  decide

/-- Claim C6 (amended): the probe answers Email cannot be empty exactly when
the parameter is absent or empty; Email must be unique exactly when the
parameter is non-empty and some stored contact's email address matches it
interpreted as an SQL LIKE pattern; and the empty body exactly when the
parameter is non-empty and no stored address matches it as a LIKE pattern. -/
theorem email_probe_characterization (o : Option String)
    (table : List Contact) :
    (contacts_email_get o table = "Email cannot be empty" ↔
      o.getD "" = "") ∧
    (contacts_email_get o table = "Email must be unique" ↔
      o.getD "" ≠ "" ∧
        ∃ c ∈ table,
          sqlLike (o.getD "") c.attributes.email_address = true) ∧
    (contacts_email_get o table = "" ↔
      o.getD "" ≠ "" ∧
        ∀ c ∈ table,
          sqlLike (o.getD "") c.attributes.email_address = false) := by
  by_cases h : o.getD "" = ""
  · simp [contacts_email_get, h]
  · by_cases hall :
      ∀ c ∈ table, sqlLike (o.getD "") c.attributes.email_address = false
    · have hlen := (filter_length_zero_iff _ table).mpr hall
      simp [contacts_email_get, h, hlen, hall]
      exact hall
    · have hex : ∃ c ∈ table,
          sqlLike (o.getD "") c.attributes.email_address = true := by
        push_neg at hall
        obtain ⟨c, hc, hcl⟩ := hall
        exact ⟨c, hc, by simpa using hcl⟩
      have hlen : (table.filter
          (fun c => sqlLike (o.getD "") c.attributes.email_address)).length ≠
            0 := by
        rw [Ne, filter_length_zero_iff]
        push_neg
        obtain ⟨c, hc, hcl⟩ := hex
        exact ⟨c, hc, by simp [hcl]⟩
      simp [contacts_email_get, h, hlen, hex, hall]

end ContactsApp

